import Mathlib

/-!
Shallow embedding of `apps/api/ml/train_insider_model.py`: an offline
training utility that loads trade/wallet CSV tables, trains an XGBoost
classifier per pipeline, and exports the model with JSON artifacts.

Tables are modelled as row-major grids of optional rationals (a `none`
cell is a missing value / NaN).  Library calls that are opaque to the
script (the sklearn train/test split, the XGBoost fit) are passed in as
function parameters; everything the script itself computes is embedded
directly from the source.
-/

namespace TrainInsiderModel

/-- A pandas DataFrame: named columns and row-major cells; a `none`
cell is a missing value (filled by `fillna`). -/
structure DataFrame where
  columns : List String
  rows : List (List (Option ℚ))
deriving DecidableEq

/-- Embeds `df.fillna(0)`: replace every missing cell by 0. -/
def DataFrame.fillna (df : DataFrame) : DataFrame :=
  { df with rows := df.rows.map (fun r => r.map (fun c => some (c.getD 0))) }

/-- Index of a column name in the header (length of `columns` if absent). -/
def DataFrame.colIdx (df : DataFrame) (c : String) : ℕ :=
  df.columns.indexOf c

/-- Embeds `df[c]`: the column of (possibly missing) cells under name `c`. -/
def DataFrame.getCol (df : DataFrame) (c : String) : List (Option ℚ) :=
  df.rows.map (fun r => r.getD (df.colIdx c) none)

/-- Result of `load_and_preprocess`: feature matrix, label vector, the
features actually present, and whether the missing-features warning
was printed. -/
structure LoadResult where
  X : List (List ℚ)
  y : List ℚ
  available_features : List String
  warnedMissing : Bool
deriving DecidableEq

/-- Embeds `load_and_preprocess`: fill missing values, require the target
column, select the requested features that exist (warning on the rest),
and build the feature matrix and label vector.  Before returning, the
stats print computes `100*sum(y)/len(y)`; on a zero-row table the
builtin `sum` of the empty label array is the plain int 0, so this
divides the int by zero and raises `ZeroDivisionError` instead of
returning. -/
def load_and_preprocess (df : DataFrame) (features : List String)
    (target : String := "is_suspicious") : Except String LoadResult :=
  let df1 := df.fillna
  if target ∈ df1.columns then
    let available_features := features.filter (fun f => f ∈ df1.columns)
    let missing := features.filter (fun f => f ∉ df1.columns)
    let X := df1.rows.map (fun r =>
      available_features.map (fun f => (r.getD (df1.colIdx f) none).getD 0))
    let y := (df1.getCol target).map (fun c => c.getD 0)
    if y.length = 0 then
      Except.error "ZeroDivisionError: division by zero"
    else
      Except.ok { X := X, y := y, available_features := available_features,
                  warnedMissing := !missing.isEmpty }
  else
    Except.error ("Target column \x27" ++ target ++ "\x27 not found in data")

/-- An XGBoost model, abstracted to what the script reads off it:
`model.feature_importances_`. -/
structure Model where
  feature_importances_ : List ℚ
deriving DecidableEq

/-- The quadruple returned by the sklearn function `train_test_split`. -/
structure SplitResult where
  X_train : List (List ℚ)
  X_test : List (List ℚ)
  y_train : List ℚ
  y_test : List ℚ

/-- Modelled from the spec: the sklearn function `train_test_split` (stratified
80/20 with a fixed seed) is library code not in this repository; it is
abstracted as an arbitrary function producing the split quadruple. -/
abbrev SplitFun : Type :=
  List (List ℚ) → List ℚ → SplitResult

/-- Modelled from the spec: `xgb.XGBClassifier(...).fit` is library
code not in this repository; it is abstracted as an arbitrary function
from the training matrix, training labels and `scale_pos_weight` to a
fitted model. -/
abbrev FitFun : Type :=
  List (List ℚ) → List ℚ → ℚ → Model

/-- Embeds `scale_pos_weight = (len(y_train) - sum(y_train)) / max(sum(y_train), 1)`. -/
def scale_pos_weight (y_train : List ℚ) : ℚ :=
  ((y_train.length : ℚ) - y_train.sum) / max y_train.sum 1

/-- Trace of a `train_xgboost` run: the fitted model, the feature
names returned unchanged, the computed class weight, and the data each
library call received (`fit` gets the training split, `cross_val_score`
gets the full `X`, `y`). -/
structure TrainTrace where
  model : Model
  feature_names : List String
  spw : ℚ
  fit_X : List (List ℚ)
  fit_y : List ℚ
  cv_X : List (List ℚ)
  cv_y : List ℚ

/-- Embeds `train_xgboost`: split the data, compute the class weight from the
training labels, fit on the training split, and cross-validate on the
full dataset. -/
def train_xgboost (split : SplitFun) (fit : FitFun)
    (X : List (List ℚ)) (y : List ℚ) (feature_names : List String) : TrainTrace :=
  let sp := split X y
  let w := scale_pos_weight sp.y_train
  let model := fit sp.X_train sp.y_train w
  { model := model, feature_names := feature_names, spw := w,
    fit_X := sp.X_train, fit_y := sp.y_train, cv_X := X, cv_y := y }

/-- The static feature-description table in `get_feature_description`. -/
def descriptions : List (String × String) :=
  [ ("wallet_age_days", "Days since wallet first seen"),
    ("wallet_markets_traded", "Number of unique markets traded"),
    ("wallet_market_concentration", "How focused on few markets (0-1)"),
    ("trade_size_usd", "Size of trade in USD"),
    ("odds_at_trade", "Market odds when trading"),
    ("is_buying_underdog", "Betting on <30% outcome"),
    ("hours_to_resolution", "Hours until market resolution"),
    ("is_final_24h", "Trading in final 24 hours"),
    ("is_new_market_for_wallet", "First trade in this market"),
    ("is_single_market_wallet", "Wallet trades <= 3 markets total"),
    ("low_odds_win_rate", "Win rate on low-odds bets"),
    ("final_24h_trade_rate", "Fraction of trades in final 24h") ]

/-- Embeds `get_feature_description`: `descriptions.get(feature, feature)`. -/
def get_feature_description (feature : String) : String :=
  (descriptions.lookup feature).getD feature

/-- One step of Python `dict` construction: a repeated key overwrites
the stored value in place, a new key is appended. -/
def dictInsert (d : List (String × ℚ)) (kv : String × ℚ) : List (String × ℚ) :=
  if kv.fst ∈ d.map Prod.fst then
    d.map (fun p => if p.fst = kv.fst then (p.fst, kv.snd) else p)
  else d ++ [kv]

/-- Python `dict(pairs)`: insertion-ordered association list with
last-value-wins semantics. -/
def pyDict (l : List (String × ℚ)) : List (String × ℚ) :=
  l.foldl dictInsert []

/-- Insert a pair into a list kept in descending order of value,
after any earlier pair with an equal value (stability). -/
def insertDesc (x : String × ℚ) : List (String × ℚ) → List (String × ℚ)
  | [] => [x]
  | y :: ys => if x.snd ≤ y.snd then y :: insertDesc x ys else x :: y :: ys

/-- Python `sorted(pairs, key=lambda x: -x[1])`: a stable sort into
descending order of the second component. -/
def sortDescBySnd (l : List (String × ℚ)) : List (String × ℚ) :=
  l.foldl (fun acc x => insertDesc x acc) []

/-- One entry of `decision_rules.json`. -/
structure Rule where
  feature : String
  importance : ℚ
  description : String
deriving DecidableEq

/-- Embeds `extract_top_rules`: rank features by importance descending, keep
the top `top_n`, and annotate each with its static description. -/
def extract_top_rules (model : Model) (feature_names : List String)
    (top_n : ℕ := 10) : List Rule :=
  let importance := pyDict (feature_names.zip model.feature_importances_)
  let sorted_features := (sortDescBySnd importance).take top_n
  sorted_features.map (fun p =>
    { feature := p.fst, importance := p.snd,
      description := get_feature_description p.fst })

/-- The `model_info.json` document. -/
structure ModelInfo where
  features : List String
  n_features : ℕ
  model_type : String
  threshold : ℚ
  feature_importance : List (String × ℚ)
deriving DecidableEq

/-- The `model_info` dictionary built by `export_model_for_js`. -/
def build_model_info (model : Model) (feature_names : List String) : ModelInfo :=
  { features := feature_names,
    n_features := feature_names.length,
    model_type := "xgboost",
    threshold := 0.5,
    feature_importance := pyDict (feature_names.zip model.feature_importances_) }

/-- Contents of a file written by the exporter. -/
inductive FileContent where
  | joblibFile (model : Model)
  | jsonInfo (info : ModelInfo)
  | jsonRules (rules : List Rule)
  | onnxFile (model : Model)
deriving DecidableEq

/-- Embeds `export_model_for_js`: write the joblib model, `model_info.json`
and `decision_rules.json` unconditionally, in that order, then attempt
the ONNX export, which is skipped when `skl2onnx` cannot be imported. -/
def export_model_for_js (model : Model) (feature_names : List String)
    (output_dir : String) (skl2onnxAvailable : Bool) :
    List (String × FileContent) :=
  [ (output_dir ++ "/insider_model.joblib", FileContent.joblibFile model),
    (output_dir ++ "/model_info.json",
      FileContent.jsonInfo (build_model_info model feature_names)),
    (output_dir ++ "/decision_rules.json",
      FileContent.jsonRules (extract_top_rules model feature_names 10)) ]
  ++ (if skl2onnxAvailable
      then [ (output_dir ++ "/insider_model.onnx", FileContent.onnxFile model) ]
      else [])

/-- The trade-level feature list `TRADE_FEATURES`. -/
def TRADE_FEATURES : List String :=
  [ "wallet_age_days", "wallet_total_trades", "wallet_total_volume",
    "wallet_markets_traded", "wallet_market_concentration",
    "wallet_avg_trade_size", "wallet_win_rate", "trade_size_usd",
    "trade_size_vs_wallet_avg", "odds_at_trade", "is_buying_underdog",
    "hours_to_resolution", "is_final_24h", "position_vs_liquidity",
    "is_new_market_for_wallet", "is_single_market_wallet" ]

/-- The wallet-level feature list `WALLET_FEATURES`. -/
def WALLET_FEATURES : List String :=
  [ "age_days", "total_trades", "total_volume", "markets_traded",
    "market_concentration", "avg_trade_size", "win_rate",
    "low_odds_win_rate", "low_odds_wins", "low_odds_attempts",
    "avg_hours_to_resolution", "final_24h_trade_rate", "final_24h_win_rate",
    "single_market_focus", "contrarian_rate" ]

/-- One pipeline of `main`: if an input table was provided (and its
file exists), load it, and when it has at least 10 positive labels,
train and export; otherwise skip with no artifacts.  A load failure
propagates as an error. -/
def runPipeline (split : SplitFun) (fit : FitFun) (skl2onnx : Bool)
    (input : Option DataFrame) (features : List String) (model_dir : String) :
    Except String (List (String × FileContent)) :=
  match input with
  | none => Except.ok []
  | some df =>
    match load_and_preprocess df features "is_suspicious" with
    | Except.error e => Except.error e
    | Except.ok res =>
      if 10 ≤ res.y.sum then
        let tt := train_xgboost split fit res.X res.y res.available_features
        Except.ok (export_model_for_js tt.model tt.feature_names model_dir skl2onnx)
      else
        Except.ok []

/-- Embeds `main`: run the trade pipeline, then the wallet pipeline, and
collect every file written.  An uncaught failure in the first pipeline
terminates the run before the second starts. -/
def main (split : SplitFun) (fit : FitFun) (skl2onnx : Bool)
    (trades wallets : Option DataFrame) (output_dir : String) :
    Except String (List (String × FileContent)) :=
  match runPipeline split fit skl2onnx trades TRADE_FEATURES
      (output_dir ++ "/trade_model") with
  | Except.error e => Except.error e
  | Except.ok tfiles =>
    match runPipeline split fit skl2onnx wallets WALLET_FEATURES
        (output_dir ++ "/wallet_model") with
    | Except.error e => Except.error e
    | Except.ok wfiles => Except.ok (tfiles ++ wfiles)

/-! ## Shared lemmas about the loader -/

/-- The function `fillna` does not change the header. -/
lemma fillna_columns (df : DataFrame) : df.fillna.columns = df.columns := rfl

/-- The function `fillna` does not change column indices. -/
lemma fillna_colIdx (df : DataFrame) (c : String) :
    df.fillna.colIdx c = df.colIdx c := rfl

/-- When the target column is present and the table has at least one
row, the loader succeeds and its result is the record built from the
(zero-filled) table. -/
lemma load_ok_of_target_mem (df : DataFrame) (features : List String)
    (target : String) (h : target ∈ df.columns) (hrows : df.rows ≠ []) :
    load_and_preprocess df features target = Except.ok
      { X := df.fillna.rows.map (fun r =>
          (features.filter (fun f => f ∈ df.columns)).map
            (fun f => (r.getD (df.colIdx f) none).getD 0)),
        y := (df.fillna.getCol target).map (fun c => c.getD 0),
        available_features := features.filter (fun f => f ∈ df.columns),
        warnedMissing := !(features.filter (fun f => f ∉ df.columns)).isEmpty } := by
  have hlen : ¬ ((df.fillna.getCol target).map (fun c => c.getD 0)).length = 0 := by
    rw [List.length_map]
    unfold DataFrame.getCol DataFrame.fillna
    rw [List.length_map, List.length_map]
    simpa [List.length_eq_zero] using hrows
  simp only [load_and_preprocess, fillna_columns, fillna_colIdx]
  rw [if_pos h, if_neg hlen]

/-- When the target column is present but the table has zero rows, the
positive-rate computation in the stats print divides by `len(y) = 0`
and the loader raises instead of returning. -/
lemma load_error_of_empty_table (df : DataFrame) (features : List String)
    (target : String) (h : target ∈ df.columns) (hrows : df.rows = []) :
    load_and_preprocess df features target =
      Except.error "ZeroDivisionError: division by zero" := by
  have hlen : ((df.fillna.getCol target).map (fun c => c.getD 0)).length = 0 := by
    rw [List.length_map]
    unfold DataFrame.getCol DataFrame.fillna
    rw [List.length_map, List.length_map]
    simp [hrows]
  simp only [load_and_preprocess, fillna_columns, fillna_colIdx]
  rw [if_pos h, if_pos hlen]

/-- When the target column is absent, the loader fails with the
configuration error message. -/
lemma load_error_of_target_not_mem (df : DataFrame) (features : List String)
    (target : String) (h : target ∉ df.columns) :
    load_and_preprocess df features target =
      Except.error ("Target column \x27" ++ target ++ "\x27 not found in data") := by
  simp only [load_and_preprocess, fillna_columns]
  rw [if_neg h]

/-- C3: for any input table in which the target column is absent,
`load_and_preprocess` raises a descriptive configuration error and
produces no result. -/
theorem load_fails_when_target_absent (df : DataFrame) (features : List String)
    (target : String) (h : target ∉ df.columns) :
    load_and_preprocess df features target =
      Except.error ("Target column \x27" ++ target ++ "\x27 not found in data") :=
  load_error_of_target_not_mem df features target h

/-- Witness for C3 at a concrete table lacking `is_suspicious`. -/
theorem load_fails_when_target_absent_witness :
    ("is_suspicious" ∉ (DataFrame.mk ["a"] [[some 1]]).columns)
    ∧ load_and_preprocess (DataFrame.mk ["a"] [[some 1]]) [] "is_suspicious" =
        Except.error ("Target column \x27" ++ "is_suspicious" ++ "\x27 not found in data") :=
  ⟨by decide, load_fails_when_target_absent _ [] _ (by decide)⟩

/-- C8: the 5-fold cross-validation is run on the entire loaded dataset
(the full `X` and `y` passed to `train_xgboost`), while the fit itself
uses only the training split. -/
theorem cv_uses_full_dataset (split : SplitFun) (fit : FitFun)
    (X : List (List ℚ)) (y : List ℚ) (names : List String) :
    (train_xgboost split fit X y names).cv_X = X
    ∧ (train_xgboost split fit X y names).cv_y = y
    ∧ (train_xgboost split fit X y names).fit_X = (split X y).X_train
    ∧ (train_xgboost split fit X y names).fit_y = (split X y).y_train :=
  ⟨rfl, rfl, rfl, rfl⟩

/-- C7: when `skl2onnx` is unavailable the exporter writes exactly the
three mandatory artifacts and no ONNX file; availability only appends
the ONNX file after them. -/
theorem export_skips_onnx_when_unavailable (model : Model)
    (names : List String) (out : String) :
    export_model_for_js model names out false =
      [ (out ++ "/insider_model.joblib", FileContent.joblibFile model),
        (out ++ "/model_info.json",
          FileContent.jsonInfo (build_model_info model names)),
        (out ++ "/decision_rules.json",
          FileContent.jsonRules (extract_top_rules model names 10)) ]
    ∧ (∀ p m2, (p, FileContent.onnxFile m2) ∉ export_model_for_js model names out false)
    ∧ export_model_for_js model names out true =
        [ (out ++ "/insider_model.joblib", FileContent.joblibFile model),
          (out ++ "/model_info.json",
            FileContent.jsonInfo (build_model_info model names)),
          (out ++ "/decision_rules.json",
            FileContent.jsonRules (extract_top_rules model names 10)),
          (out ++ "/insider_model.onnx", FileContent.onnxFile model) ] := by
  refine ⟨by simp [export_model_for_js], ?_, by simp [export_model_for_js]⟩
  intro p m2 hmem
  simp [export_model_for_js] at hmem

/-! ## Lemmas about binary label vectors -/

/-- On a 0/1 label vector the sum counts the positives. -/
lemma sum_eq_count_one (l : List ℚ) (h : ∀ v ∈ l, v = 0 ∨ v = 1) :
    l.sum = (l.count 1 : ℚ) := by
  induction l with
  | nil => simp
  | cons a t ih =>
    have ha := h a (List.mem_cons_self a t)
    have ht := ih (fun v hv => h v (List.mem_cons_of_mem a hv))
    rcases ha with rfl | rfl
    · rw [List.sum_cons, ht, List.count_cons]
      norm_num
    · rw [List.sum_cons, ht, List.count_cons]
      norm_num [add_comm]

/-- On a 0/1 label vector the length splits into negatives plus positives. -/
lemma length_eq_count_add (l : List ℚ) (h : ∀ v ∈ l, v = 0 ∨ v = 1) :
    l.length = l.count 0 + l.count 1 := by
  induction l with
  | nil => simp
  | cons a t ih =>
    have ha := h a (List.mem_cons_self a t)
    have ht := ih (fun v hv => h v (List.mem_cons_of_mem a hv))
    rcases ha with rfl | rfl
    · rw [List.length_cons, ht, List.count_cons, List.count_cons]
      norm_num
      omega
    · rw [List.length_cons, ht, List.count_cons, List.count_cons]
      norm_num
      omega

/-- C2: with `p` positives and `n` negatives in the training labels,
the class weight passed to the classifier is `n / max(p, 1)`, is
nonnegative, and is the function `scale_pos_weight` of the training
split labels alone (not of the full dataset). -/
theorem scale_pos_weight_spec (split : SplitFun) (fit : FitFun)
    (X : List (List ℚ)) (y : List ℚ) (names : List String) (p n : ℕ)
    (hbin : ∀ v ∈ (split X y).y_train, v = 0 ∨ v = 1)
    (hp : (split X y).y_train.count 1 = p)
    (hn : (split X y).y_train.count 0 = n) :
    (train_xgboost split fit X y names).spw = (n : ℚ) / max (p : ℚ) 1
    ∧ 0 ≤ (train_xgboost split fit X y names).spw
    ∧ (train_xgboost split fit X y names).spw =
        scale_pos_weight (split X y).y_train := by
  have hsum : (split X y).y_train.sum = (p : ℚ) := by
    rw [sum_eq_count_one _ hbin, hp]
  have hlen : (split X y).y_train.length = n + p := by
    rw [length_eq_count_add _ hbin, hp, hn]
  have hmain : (train_xgboost split fit X y names).spw = (n : ℚ) / max (p : ℚ) 1 := by
    show scale_pos_weight (split X y).y_train = (n : ℚ) / max (p : ℚ) 1
    unfold scale_pos_weight
    rw [hsum, hlen]
    push_cast
    ring_nf
  refine ⟨hmain, ?_, rfl⟩
  rw [hmain]
  apply div_nonneg (Nat.cast_nonneg n)
  exact le_trans zero_le_one (le_max_right _ 1)

/-- Witness for C2 at a concrete split with labels `[1, 0, 0]`. -/
theorem scale_pos_weight_spec_witness :
    (∀ v ∈ (((fun _ _ => ⟨[], [], [1, 0, 0], []⟩) : SplitFun) [] []).y_train,
        v = 0 ∨ v = 1)
    ∧ (train_xgboost (fun _ _ => ⟨[], [], [1, 0, 0], []⟩)
        (fun _ _ _ => ⟨[]⟩) [] [] []).spw = ((2 : ℕ) : ℚ) / max ((1 : ℕ) : ℚ) 1
    ∧ 0 ≤ (train_xgboost (fun _ _ => ⟨[], [], [1, 0, 0], []⟩)
        (fun _ _ _ => ⟨[]⟩) [] [] []).spw :=
  ⟨by decide,
   (scale_pos_weight_spec (fun _ _ => ⟨[], [], [1, 0, 0], []⟩)
      (fun _ _ _ => ⟨[]⟩) [] [] [] 1 2 (by decide) (by decide) (by decide)).1,
   (scale_pos_weight_spec (fun _ _ => ⟨[], [], [1, 0, 0], []⟩)
      (fun _ _ _ => ⟨[]⟩) [] [] [] 1 2 (by decide) (by decide) (by decide)).2.1⟩

/-- C4 counterexample: a zero-row table whose header has the target
and one of two requested features satisfies the claim as frozen, yet
the loader raises `ZeroDivisionError` in the stats print rather than
succeeding. -/
theorem load_crashes_on_empty_with_missing_features :
    ("is_suspicious" ∈ (DataFrame.mk ["is_suspicious", "a"] []).columns)
    ∧ (∃ f ∈ ["a", "b"], f ∉ (DataFrame.mk ["is_suspicious", "a"] []).columns)
    ∧ (∃ f ∈ ["a", "b"], f ∈ (DataFrame.mk ["is_suspicious", "a"] []).columns)
    ∧ load_and_preprocess (DataFrame.mk ["is_suspicious", "a"] []) ["a", "b"]
        "is_suspicious" = Except.error "ZeroDivisionError: division by zero"
    ∧ ∀ res, load_and_preprocess (DataFrame.mk ["is_suspicious", "a"] [])
        ["a", "b"] "is_suspicious" ≠ Except.ok res := by
  refine ⟨by decide, by decide, by decide, by rfl, ?_⟩
  intro res h
  have he : load_and_preprocess (DataFrame.mk ["is_suspicious", "a"] [])
      ["a", "b"] "is_suspicious" =
        Except.error "ZeroDivisionError: division by zero" := by rfl
  rw [he] at h
  exact Except.noConfusion h

/-- C4 (amended): with the target present in a table with at least one
row and some (not all) requested features absent, the loader succeeds,
prints the missing-features warning, and returns exactly the requested
features that exist in the table. -/
theorem load_drops_exactly_missing_features (df : DataFrame)
    (features : List String) (target : String)
    (htarget : target ∈ df.columns)
    (hrows : df.rows ≠ [])
    (hmiss : ∃ f ∈ features, f ∉ df.columns)
    (_hpres : ∃ f ∈ features, f ∈ df.columns) :
    ∃ res, load_and_preprocess df features target = Except.ok res
      ∧ res.available_features = features.filter (fun f => f ∈ df.columns)
      ∧ res.warnedMissing = true
      ∧ ∀ f, f ∈ res.available_features ↔ (f ∈ features ∧ f ∈ df.columns) := by
  refine ⟨_, load_ok_of_target_mem df features target htarget hrows, rfl, ?_, ?_⟩
  · obtain ⟨f, hf, hfn⟩ := hmiss
    have hmem : f ∈ features.filter (fun f => f ∉ df.columns) :=
      List.mem_filter.mpr ⟨hf, by simpa using hfn⟩
    cases hx : features.filter (fun f => f ∉ df.columns) with
    | nil =>
      rw [hx] at hmem
      exact absurd hmem (List.not_mem_nil f)
    | cons a t =>
      rfl
  · intro f
    simp [List.mem_filter]

/-- Witness for C4: one-row table with columns `is_suspicious`, `a`;
requested features `a` (present) and `b` (absent). -/
theorem load_drops_exactly_missing_features_witness :
    ("is_suspicious" ∈ (DataFrame.mk ["is_suspicious", "a"] [[some 1, some 2]]).columns)
    ∧ (DataFrame.mk ["is_suspicious", "a"] [[some 1, some 2]]).rows ≠ []
    ∧ (∃ f ∈ ["a", "b"], f ∉ (DataFrame.mk ["is_suspicious", "a"] [[some 1, some 2]]).columns)
    ∧ (∃ f ∈ ["a", "b"], f ∈ (DataFrame.mk ["is_suspicious", "a"] [[some 1, some 2]]).columns)
    ∧ ∃ res, load_and_preprocess (DataFrame.mk ["is_suspicious", "a"] [[some 1, some 2]])
          ["a", "b"] "is_suspicious" = Except.ok res
        ∧ res.available_features =
            (["a", "b"].filter (fun f =>
              f ∈ (DataFrame.mk ["is_suspicious", "a"] [[some 1, some 2]]).columns))
        ∧ res.warnedMissing = true
        ∧ ∀ f, f ∈ res.available_features ↔
            (f ∈ ["a", "b"] ∧ f ∈ (DataFrame.mk ["is_suspicious", "a"] [[some 1, some 2]]).columns) :=
  ⟨by decide, by decide, by decide, by decide,
   load_drops_exactly_missing_features _ _ _ (by decide) (by decide) (by decide)
     (by decide)⟩

/-- C10 counterexample: a zero-row table with only the target column
satisfies the claim as frozen, yet the loader raises
`ZeroDivisionError` in the stats print rather than returning. -/
theorem load_crashes_on_empty_with_no_features :
    ("is_suspicious" ∈ (DataFrame.mk ["is_suspicious"] []).columns)
    ∧ (∀ f ∈ ["a", "b"], f ∉ (DataFrame.mk ["is_suspicious"] []).columns)
    ∧ (["a", "b"] : List String) ≠ []
    ∧ load_and_preprocess (DataFrame.mk ["is_suspicious"] []) ["a", "b"]
        "is_suspicious" = Except.error "ZeroDivisionError: division by zero"
    ∧ ∀ res, load_and_preprocess (DataFrame.mk ["is_suspicious"] [])
        ["a", "b"] "is_suspicious" ≠ Except.ok res := by
  refine ⟨by decide, by decide, by decide, by rfl, ?_⟩
  intro res h
  have he : load_and_preprocess (DataFrame.mk ["is_suspicious"] [])
      ["a", "b"] "is_suspicious" =
        Except.error "ZeroDivisionError: division by zero" := by rfl
  rw [he] at h
  exact Except.noConfusion h

/-- C10 (amended): with the target present in a table with at least
one row and every requested feature absent, the loader still succeeds,
warns, and returns an empty feature list with a zero-column feature
matrix. -/
theorem load_succeeds_with_no_features (df : DataFrame)
    (features : List String) (target : String)
    (htarget : target ∈ df.columns)
    (hrows : df.rows ≠ [])
    (hall : ∀ f ∈ features, f ∉ df.columns)
    (hne : features ≠ []) :
    ∃ res, load_and_preprocess df features target = Except.ok res
      ∧ res.available_features = []
      ∧ res.warnedMissing = true
      ∧ ∀ row ∈ res.X, row = [] := by
  have hfil : features.filter (fun f => f ∈ df.columns) = [] :=
    List.filter_eq_nil_iff.mpr (fun f hf => by simpa using hall f hf)
  refine ⟨_, load_ok_of_target_mem df features target htarget hrows, hfil, ?_, ?_⟩
  · have hfil2 : features.filter (fun f => f ∉ df.columns) = features :=
      List.filter_eq_self.mpr (fun f hf => by simpa using hall f hf)
    rw [hfil2]
    cases features with
    | nil => exact absurd rfl hne
    | cons a t => rfl
  · intro row hrow
    obtain ⟨r, _, hr⟩ := List.mem_map.mp hrow
    rw [← hr, hfil]
    rfl

/-- Witness for C10: one-row table with only the target column, two
requested features, both absent. -/
theorem load_succeeds_with_no_features_witness :
    ("is_suspicious" ∈ (DataFrame.mk ["is_suspicious"] [[some 1]]).columns)
    ∧ (DataFrame.mk ["is_suspicious"] [[some 1]]).rows ≠ []
    ∧ (∀ f ∈ ["a", "b"], f ∉ (DataFrame.mk ["is_suspicious"] [[some 1]]).columns)
    ∧ (["a", "b"] : List String) ≠ []
    ∧ ∃ res, load_and_preprocess (DataFrame.mk ["is_suspicious"] [[some 1]])
          ["a", "b"] "is_suspicious" = Except.ok res
        ∧ res.available_features = []
        ∧ res.warnedMissing = true
        ∧ ∀ row ∈ res.X, row = [] :=
  ⟨by decide, by decide, by decide, by decide,
   load_succeeds_with_no_features _ _ _ (by decide) (by decide) (by decide)
     (by decide)⟩

/-! ## Lemmas relating the label vector to the raw column -/

/-- Reading an entry of a zero-filled row and defaulting agrees with
defaulting the raw entry. -/
lemma getD_map_fill (r : List (Option ℚ)) (i : ℕ) :
    ((r.map (fun c => some (c.getD 0))).getD i none).getD 0 = (r.getD i none).getD 0 := by
  induction r generalizing i with
  | nil => simp
  | cons a t ih =>
    cases i with
    | zero => simp
    | succ j => simpa using ih j

/-- The label vector built from the zero-filled table equals the raw
target column with missing cells read as 0. -/
lemma y_eq_raw_col (df : DataFrame) (target : String) :
    (df.fillna.getCol target).map (fun c => c.getD 0) =
      (df.getCol target).map (fun c => c.getD 0) := by
  unfold DataFrame.getCol
  rw [fillna_colIdx]
  show ((df.rows.map (fun r => r.map (fun c => some (c.getD 0)))).map
      (fun r => r.getD (df.colIdx target) none)).map (fun c => c.getD 0) = _
  rw [List.map_map, List.map_map, List.map_map]
  apply List.map_congr_left
  intro r _
  simp only [Function.comp_apply]
  exact getD_map_fill r (df.colIdx target)

/-- Summing defaulted cells equals summing only the present cells:
missing entries contribute 0. -/
lemma sum_map_getD_eq_sum_present (l : List (Option ℚ)) :
    (l.map (fun c => c.getD 0)).sum = (l.filterMap id).sum := by
  induction l with
  | nil => rfl
  | cons a t ih =>
    cases a with
    | none => simpa using ih
    | some v => simp [ih]

/-- C9: the zero-fill happens before the target column is extracted,
so a row with a missing label gets label 0, and the label sum that
gates training equals the sum of the present labels only. -/
theorem missing_label_zero_filled (df : DataFrame) (features : List String)
    (target : String) (res : LoadResult)
    (hload : load_and_preprocess df features target = Except.ok res) :
    res.y = (df.getCol target).map (fun c => c.getD 0)
    ∧ (∀ i, (df.getCol target).getD i (some 0) = none → res.y.getD i 1 = 0)
    ∧ res.y.sum = ((df.getCol target).filterMap id).sum := by
  by_cases h : target ∈ df.columns
  case neg =>
    rw [load_error_of_target_not_mem df features target h] at hload
    exact Except.noConfusion hload
  by_cases hrows : df.rows = []
  case pos =>
    rw [load_error_of_empty_table df features target h hrows] at hload
    exact Except.noConfusion hload
  · rw [load_ok_of_target_mem df features target h hrows] at hload
    have hres := Except.ok.inj hload
    have hy : res.y = (df.getCol target).map (fun c => c.getD 0) := by
      rw [← hres]
      exact y_eq_raw_col df target
    refine ⟨hy, ?_, ?_⟩
    · intro i hi
      rw [hy]
      rcases hcell : (df.getCol target).getD i none with _ | v
      · by_cases hlt : i < (df.getCol target).length
        · rw [List.getD_eq_getElem _ _ (by simpa using hlt)]
          rw [List.getElem_map]
          have : (df.getCol target)[i] = none := by
            rw [← List.getD_eq_getElem _ none hlt]
            exact hcell
          rw [this]
          rfl
        · exfalso
          rw [List.getD_eq_default _ _ (not_lt.mp hlt)] at hi
          exact Option.noConfusion hi
      · exfalso
        by_cases hlt : i < (df.getCol target).length
        · rw [List.getD_eq_getElem _ _ hlt] at hcell hi
          rw [hcell] at hi
          exact Option.noConfusion hi
        · rw [List.getD_eq_default _ _ (not_lt.mp hlt)] at hi
          exact Option.noConfusion hi
    · rw [hy]
      exact sum_map_getD_eq_sum_present _

/-- Witness for C9: a table whose second row has a missing label. -/
theorem missing_label_zero_filled_witness :
    load_and_preprocess (DataFrame.mk ["is_suspicious"] [[some 1], [none]]) []
        "is_suspicious" =
      Except.ok (LoadResult.mk [[], []] [1, 0] [] false)
    ∧ ((LoadResult.mk [[], []] ([1, 0] : List ℚ) [] false).y =
        ((DataFrame.mk ["is_suspicious"] [[some 1], [none]]).getCol
          "is_suspicious").map (fun c => c.getD 0)
      ∧ (∀ i, ((DataFrame.mk ["is_suspicious"] [[some 1], [none]]).getCol
            "is_suspicious").getD i (some 0) = none →
          (LoadResult.mk [[], []] ([1, 0] : List ℚ) [] false).y.getD i 1 = 0)
      ∧ (LoadResult.mk [[], []] ([1, 0] : List ℚ) [] false).y.sum =
          (((DataFrame.mk ["is_suspicious"] [[some 1], [none]]).getCol
            "is_suspicious").filterMap id).sum) :=
  ⟨by rfl, missing_label_zero_filled _ [] _ _ (by rfl)⟩

/-! ## Lemmas about Python dict construction -/

/-- Folding `dictInsert` over pairs with pairwise-distinct keys just
appends them in order. -/
lemma foldl_dictInsert_of_nodup (l acc : List (String × ℚ))
    (h : ((acc ++ l).map Prod.fst).Nodup) :
    l.foldl dictInsert acc = acc ++ l := by
  induction l generalizing acc with
  | nil => simp
  | cons kv t ih =>
    have hk : kv.fst ∉ acc.map Prod.fst := by
      intro hmem
      rw [List.map_append] at h
      have hdisj := (List.nodup_append.mp h).2.2
      exact hdisj hmem (by simp)
    rw [List.foldl_cons]
    have hins : dictInsert acc kv = acc ++ [kv] := by
      unfold dictInsert
      rw [if_neg hk]
    rw [hins, ih (acc ++ [kv]) (by simpa [List.append_assoc] using h)]
    simp

/-- A pair list with pairwise-distinct keys is its own Python dict. -/
lemma pyDict_eq_self (l : List (String × ℚ)) (h : (l.map Prod.fst).Nodup) :
    pyDict l = l := by
  have := foldl_dictInsert_of_nodup l [] (by simpa using h)
  simpa [pyDict] using this

/-- C5: `model_info.json` is written by the exporter with `features`
equal to the feature-name list from the trainer, `n_features` its length,
`model_type` the constant `"xgboost"`, `threshold` the constant 0.5,
and `feature_importance` keyed by exactly those feature names. -/
theorem model_info_contents (model : Model) (names : List String)
    (out : String) (b : Bool)
    (hlen : model.feature_importances_.length = names.length)
    (hnd : names.Nodup) :
    (out ++ "/model_info.json",
        FileContent.jsonInfo (build_model_info model names)) ∈
      export_model_for_js model names out b
    ∧ (build_model_info model names).feature_importance.map Prod.fst = names
    ∧ (build_model_info model names).features = names
    ∧ (build_model_info model names).n_features = names.length
    ∧ (build_model_info model names).model_type = "xgboost"
    ∧ (build_model_info model names).threshold = 0.5 := by
  have hkeys : (names.zip model.feature_importances_).map Prod.fst = names :=
    List.map_fst_zip _ _ (le_of_eq hlen.symm)
  refine ⟨?_, ?_, rfl, rfl, rfl, rfl⟩
  · simp [export_model_for_js]
  · show (pyDict (names.zip model.feature_importances_)).map Prod.fst = names
    rw [pyDict_eq_self _ (by rw [hkeys]; exact hnd), hkeys]

/-- Witness for C5 with two features and two importance scores. -/
theorem model_info_contents_witness :
    ((Model.mk [1/2, 1/4]).feature_importances_.length = (["a", "b"] : List String).length)
    ∧ (["a", "b"] : List String).Nodup
    ∧ (("m" ++ "/model_info.json",
          FileContent.jsonInfo (build_model_info (Model.mk [1/2, 1/4]) ["a", "b"])) ∈
        export_model_for_js (Model.mk [1/2, 1/4]) ["a", "b"] "m" false
      ∧ (build_model_info (Model.mk [1/2, 1/4]) ["a", "b"]).feature_importance.map
          Prod.fst = ["a", "b"]
      ∧ (build_model_info (Model.mk [1/2, 1/4]) ["a", "b"]).features = ["a", "b"]
      ∧ (build_model_info (Model.mk [1/2, 1/4]) ["a", "b"]).n_features =
          (["a", "b"] : List String).length
      ∧ (build_model_info (Model.mk [1/2, 1/4]) ["a", "b"]).model_type = "xgboost"
      ∧ (build_model_info (Model.mk [1/2, 1/4]) ["a", "b"]).threshold = 0.5) :=
  ⟨by decide, by decide,
   model_info_contents (Model.mk [1/2, 1/4]) ["a", "b"] "m" false
     (by decide) (by decide)⟩

/-! ## Lemmas about the descending sort -/

/-- The ordering used to rank importances: descending second component. -/
def impGE (a b : String × ℚ) : Prop := b.snd ≤ a.snd

/-- Membership through `insertDesc`. -/
lemma mem_insertDesc (x z : String × ℚ) (l : List (String × ℚ)) :
    z ∈ insertDesc x l ↔ z = x ∨ z ∈ l := by
  induction l with
  | nil => simp [insertDesc]
  | cons y ys ih =>
    unfold insertDesc
    split_ifs with h
    · rw [List.mem_cons, ih, List.mem_cons]
      tauto
    · simp only [List.mem_cons]

/-- The function `insertDesc` preserves descending sortedness. -/
lemma sorted_insertDesc (x : String × ℚ) (l : List (String × ℚ))
    (h : List.Sorted impGE l) : List.Sorted impGE (insertDesc x l) := by
  induction l with
  | nil => simp [insertDesc]
  | cons y ys ih =>
    rw [List.sorted_cons] at h
    obtain ⟨hy, hys⟩ := h
    unfold insertDesc
    split_ifs with hle
    · rw [List.sorted_cons]
      refine ⟨?_, ih hys⟩
      intro z hz
      rcases (mem_insertDesc x z ys).mp hz with rfl | hz2
      · exact hle
      · exact hy z hz2
    · rw [List.sorted_cons]
      refine ⟨?_, ?_⟩
      · intro z hz
        rcases List.mem_cons.mp hz with rfl | hz2
        · exact le_of_not_le hle
        · exact le_trans (hy z hz2) (le_of_not_le hle)
      · rw [List.sorted_cons]
        exact ⟨hy, hys⟩

/-- The stable sort produces a descending-sorted list. -/
lemma sorted_sortDescBySnd (l : List (String × ℚ)) :
    List.Sorted impGE (sortDescBySnd l) := by
  unfold sortDescBySnd
  suffices H : ∀ acc, List.Sorted impGE acc →
      List.Sorted impGE (l.foldl (fun acc x => insertDesc x acc) acc) from
    H [] (by simp)
  induction l with
  | nil =>
    intro acc h
    simpa using h
  | cons x t ih =>
    intro acc h
    rw [List.foldl_cons]
    exact ih _ (sorted_insertDesc x acc h)

/-- The function `insertDesc` grows the list by one. -/
lemma length_insertDesc (x : String × ℚ) (l : List (String × ℚ)) :
    (insertDesc x l).length = l.length + 1 := by
  induction l with
  | nil => rfl
  | cons y ys ih =>
    unfold insertDesc
    split_ifs with h
    · rw [List.length_cons, ih, List.length_cons]
    · rw [List.length_cons, List.length_cons]

/-- Sorting preserves length. -/
lemma length_sortDescBySnd (l : List (String × ℚ)) :
    (sortDescBySnd l).length = l.length := by
  unfold sortDescBySnd
  suffices H : ∀ acc, (l.foldl (fun acc x => insertDesc x acc) acc).length =
      acc.length + l.length from by
    simpa using H []
  induction l with
  | nil =>
    intro acc
    simp
  | cons x t ih =>
    intro acc
    rw [List.foldl_cons, ih (insertDesc x acc), length_insertDesc]
    simp
    omega

/-- C6: `extract_top_rules` returns at most the top 10 features in
descending importance order — every returned rule dominates every
entry left out of the top 10 — and each rule carries the static
description of its feature, falling back to the raw feature name when
the lookup table has no entry. -/
theorem extract_top_rules_spec (model : Model) (names : List String) :
    List.Sorted (fun r s => s.importance ≤ r.importance)
      (extract_top_rules model names 10)
    ∧ (∀ r ∈ extract_top_rules model names 10,
        r.description = (descriptions.lookup r.feature).getD r.feature)
    ∧ (extract_top_rules model names 10).length =
        min 10 (pyDict (names.zip model.feature_importances_)).length
    ∧ (∀ r ∈ extract_top_rules model names 10,
        ∀ q ∈ (sortDescBySnd (pyDict (names.zip model.feature_importances_))).drop 10,
          q.snd ≤ r.importance) := by
  have hs : List.Sorted impGE
      (sortDescBySnd (pyDict (names.zip model.feature_importances_))) :=
    sorted_sortDescBySnd _
  refine ⟨?_, ?_, ?_, ?_⟩
  · unfold extract_top_rules
    apply List.Pairwise.map
    · intro a b hab
      exact hab
    · exact (hs.sublist (List.take_sublist _ _))
  · intro r hr
    unfold extract_top_rules at hr
    obtain ⟨p, _, hp⟩ := List.mem_map.mp hr
    rw [← hp]
    rfl
  · unfold extract_top_rules
    rw [List.length_map, List.length_take, length_sortDescBySnd]
  · intro r hr q hq
    unfold extract_top_rules at hr
    obtain ⟨p, hpmem, hp⟩ := List.mem_map.mp hr
    have hdom := (List.pairwise_append.mp
      (by rw [List.take_append_drop
          10 (sortDescBySnd (pyDict (names.zip model.feature_importances_)))]
          exact hs)).2.2
    have := hdom p hpmem q hq
    rw [← hp]
    exact this

/-- Witness for C6 at a concrete model and feature list. -/
theorem extract_top_rules_spec_witness :
    List.Sorted (fun r s => s.importance ≤ r.importance)
      (extract_top_rules (Model.mk [1/2, 3/4]) ["a", "wallet_age_days"] 10)
    ∧ (∀ r ∈ extract_top_rules (Model.mk [1/2, 3/4]) ["a", "wallet_age_days"] 10,
        r.description = (descriptions.lookup r.feature).getD r.feature)
    ∧ (extract_top_rules (Model.mk [1/2, 3/4]) ["a", "wallet_age_days"] 10).length =
        min 10 (pyDict (["a", "wallet_age_days"].zip
          (Model.mk [1/2, 3/4]).feature_importances_)).length
    ∧ (∀ r ∈ extract_top_rules (Model.mk [1/2, 3/4]) ["a", "wallet_age_days"] 10,
        ∀ q ∈ (sortDescBySnd (pyDict (["a", "wallet_age_days"].zip
            (Model.mk [1/2, 3/4]).feature_importances_))).drop 10,
          q.snd ≤ r.importance) :=
  extract_top_rules_spec (Model.mk [1/2, 3/4]) ["a", "wallet_age_days"]

/-- C1: when the trades table loads with fewer than 10 positive
labels, `main` skips that pipeline entirely — its result is exactly the
result of the wallet pipeline, with no trade artifacts — and a qualifying
wallet input still trains and exports. -/
theorem main_skips_pipeline_with_few_positives (split : SplitFun) (fit : FitFun)
    (b : Bool) (df : DataFrame) (wallets : Option DataFrame) (out : String)
    (res : LoadResult)
    (hload : load_and_preprocess df TRADE_FEATURES "is_suspicious" = Except.ok res)
    (hfew : res.y.sum < 10) :
    main split fit b (some df) wallets out
      = runPipeline split fit b wallets WALLET_FEATURES (out ++ "/wallet_model")
    ∧ (∀ wdf wres, wallets = some wdf →
        load_and_preprocess wdf WALLET_FEATURES "is_suspicious" = Except.ok wres →
        10 ≤ wres.y.sum →
        main split fit b (some df) wallets out
          = Except.ok (export_model_for_js
              (train_xgboost split fit wres.X wres.y wres.available_features).model
              (train_xgboost split fit wres.X wres.y wres.available_features).feature_names
              (out ++ "/wallet_model") b)) := by
  have htr : runPipeline split fit b (some df) TRADE_FEATURES
      (out ++ "/trade_model") = Except.ok [] := by
    simp only [runPipeline, hload]
    rw [if_neg (not_le.mpr hfew)]
  constructor
  · unfold main
    rw [htr]
    cases hw : runPipeline split fit b wallets WALLET_FEATURES
        (out ++ "/wallet_model") with
    | error e => rfl
    | ok wfiles => rfl
  · intro wdf wres hw hwload hten
    subst hw
    have hwr : runPipeline split fit b (some wdf) WALLET_FEATURES
        (out ++ "/wallet_model") = Except.ok (export_model_for_js
          (train_xgboost split fit wres.X wres.y wres.available_features).model
          (train_xgboost split fit wres.X wres.y wres.available_features).feature_names
          (out ++ "/wallet_model") b) := by
      simp only [runPipeline, hwload]
      rw [if_pos hten]
    unfold main
    rw [htr, hwr]
    rfl

/-- Witness for C1: a one-row trades table with a single positive
label (below the threshold of 10) and no wallets input. -/
theorem main_skips_pipeline_with_few_positives_witness :
    load_and_preprocess (DataFrame.mk ["is_suspicious"] [[some 1]])
        TRADE_FEATURES "is_suspicious" =
      Except.ok (LoadResult.mk [[]] [1] [] true)
    ∧ (LoadResult.mk [[]] ([1] : List ℚ) [] true).y.sum < 10
    ∧ (main (fun _ _ => SplitResult.mk [] [] [] []) (fun _ _ _ => Model.mk [])
          false (some (DataFrame.mk ["is_suspicious"] [[some 1]])) none "model"
        = runPipeline (fun _ _ => SplitResult.mk [] [] [] [])
            (fun _ _ _ => Model.mk []) false none WALLET_FEATURES
            ("model" ++ "/wallet_model")
      ∧ (∀ wdf wres, (none : Option DataFrame) = some wdf →
          load_and_preprocess wdf WALLET_FEATURES "is_suspicious" = Except.ok wres →
          10 ≤ wres.y.sum →
          main (fun _ _ => SplitResult.mk [] [] [] []) (fun _ _ _ => Model.mk [])
              false (some (DataFrame.mk ["is_suspicious"] [[some 1]])) none "model"
            = Except.ok (export_model_for_js
                (train_xgboost (fun _ _ => SplitResult.mk [] [] [] [])
                  (fun _ _ _ => Model.mk []) wres.X wres.y wres.available_features).model
                (train_xgboost (fun _ _ => SplitResult.mk [] [] [] [])
                  (fun _ _ _ => Model.mk []) wres.X wres.y wres.available_features).feature_names
                ("model" ++ "/wallet_model") false))) :=
  ⟨by rfl, by simp,
   main_skips_pipeline_with_few_positives (fun _ _ => SplitResult.mk [] [] [] [])
     (fun _ _ _ => Model.mk []) false (DataFrame.mk ["is_suspicious"] [[some 1]])
     none "model" (LoadResult.mk [[]] [1] [] true) (by rfl) (by simp)⟩

end TrainInsiderModel
